import Mathlib

/-!
Verification of the measurement-analytics core of the smart-surface dashboard
(`src/script.js`, final version starting at the `// final script.js` header).

Shallow embedding conventions:
* JavaScript numbers are idealised as exact rationals (`ℚ`) except where the
  code takes a square root (`stddev`), whose result lives in `ℝ`.
* `Option ℚ` models a numeric field that may be absent (`none` = absent /
  `undefined` / JSON `null`); for `stddev` and `computeAccuracy` results,
  `Option ℝ` uses `none` for the IEEE `NaN` that the JS code produces and
  propagates (NaN is absorbing in arithmetic and every `<` comparison on it
  is false, which the definitions below reproduce case by case).
* JS truthiness on numbers (`0`, `NaN`, `null`, `undefined` falsy) is
  `truthyQ`; on strings (`""` falsy) it is `truthyS`.
* `Math.round x` is `⌊x + 1/2⌋` (JS rounds half toward +∞).
* The `Math.random()` jitter used by `addBlip` is injected explicitly as a
  pair of rationals (the spec requires the random source to be injectable).
* DOM state that feeds back into the computation (the parsed numeric content
  of the `live-amb` / `live-obj` text nodes, read back via `parseFloat`) is
  carried in the `World` state; purely presentational DOM writes are omitted.
-/

/-- JS truthiness of a possibly-absent number: `0`, `null`, `undefined` are falsy. -/
def truthyQ : Option ℚ → Bool
  | some q => q != 0
  | none => false

/-- JS truthiness of a possibly-absent string: `""` is falsy. -/
def truthyS : Option String → Bool
  | some s => s != ""
  | none => false

/-- JS `a || b` on possibly-absent numbers. -/
def jsOrQ (a b : Option ℚ) : Option ℚ :=
  if truthyQ a then a else b

/-- JS `a || b` on possibly-absent strings. -/
def jsOrS (a b : Option String) : Option String :=
  if truthyS a then a else b

/-- An `{r,g,b}` colour record from a material payload. -/
structure RGB where
  r : ℚ
  g : ℚ
  b : ℚ
deriving DecidableEq

/-- A measurement-response JSON object: every field optional (`none` = the
field is missing from the payload).  Reading-list entries may be JSON `null`
(`none`). -/
structure Payload where
  distance : Option ℚ := none
  ambient_temp : Option ℚ := none
  object_temp : Option ℚ := none
  speed : Option ℚ := none
  readings : Option (List (Option ℚ)) := none
  shape : Option String := none
  material : Option String := none
  rgb : Option RGB := none
deriving DecidableEq

/-- A JS value as stored in `lastResults.distance`, `lastResults.readings`
and the chart data array: a number, `null`, or (via the `data.distance ?? data`
fallback) a whole response object. -/
inductive JVal where
  | num (q : ℚ)
  | null
  | obj (p : Payload)
deriving DecidableEq

/-- Numeric coercion of a `JVal` as JS arithmetic performs it:
`null` coerces to `0`; an object coerces to `NaN` (`none`). -/
def jvalNumOpt : JVal → Option ℚ
  | JVal.num q => some q
  | JVal.null => some 0
  | JVal.obj _ => none

/-- JS truthiness of a stored value: nonzero numbers and objects are truthy;
`0` and `null` are falsy. -/
def jvalTruthy : JVal → Bool
  | JVal.num q => q != 0
  | JVal.null => false
  | JVal.obj _ => true

/-- A reading-list entry as it is stored into `lastResults.readings`. -/
def jvalOfEntry : Option ℚ → JVal
  | some q => JVal.num q
  | none => JVal.null

/-- MAX_POINTS = 10 (script.js line 351). -/
def MAX_POINTS : ℕ := 10

/-- The chart data array at startup: `Array(MAX_POINTS).fill(null)`
(script.js line 388). -/
def chartInit : List JVal := List.replicate MAX_POINTS JVal.null

/-- `pushChart(v)` (script.js lines 392-397): append, then if the length
exceeds `MAX_POINTS` shift off the head. -/
def pushChart (l : List JVal) (v : JVal) : List JVal :=
  let l2 := l ++ [v]
  if l2.length > MAX_POINTS then l2.tail else l2

/-- Clamp to `[0,1]`: `Math.max(0, Math.min(1, x))`. -/
def clamp01 (q : ℚ) : ℚ := max 0 (min 1 q)

/-- A radar blip `{r, angle, alpha, ttl}` (script.js line 414).  `r` is
`Option ℚ` because `addBlip` on a non-numeric distance produces `NaN`. -/
structure Blip where
  r : Option ℚ
  angle : ℚ
  alpha : ℚ
  ttl : ℚ
deriving DecidableEq

/-- The blip built by `addBlip(distanceCm)` (script.js lines 416-422):
`r = clamp01(d/200) * maxR`, angle jittered around the sweep angle, full
alpha, `ttl = 70 + random*40`.  `jit` injects the two `Math.random()` draws
(each in `[0,1)`). -/
def mkBlip (maxR sweep : ℚ) (jit : ℚ × ℚ) (d : JVal) : Blip :=
  { r := (jvalNumOpt d).map fun q => clamp01 (q / 200) * maxR
    angle := sweep + (jit.1 - 1/2) * (3/5)
    alpha := 1
    ttl := 70 + jit.2 * 40 }

/-- `addBlip` appends one blip to the blip array. -/
def addBlip (maxR sweep : ℚ) (jit : ℚ × ℚ) (d : JVal) (blips : List Blip) :
    List Blip :=
  blips ++ [mkBlip maxR sweep jit d]

/-- The per-tick alpha decay factor of the final script (`b.alpha *= 0.99`,
script.js line 465). -/
def decayFactor : ℚ := 99 / 100

/-- One tick's decay of a single blip: `alpha *= 0.99; ttl -= 1`. -/
def decayBlip (b : Blip) : Blip :=
  { b with alpha := decayFactor * b.alpha, ttl := b.ttl - 1 }

/-- The survival test of the blip loop: kept unless `ttl <= 0 || alpha < 0.02`
(script.js line 466). -/
def keepBlip (b : Blip) : Bool :=
  !(b.ttl ≤ 0 || b.alpha < 1/50)

/-- The blip pass of `draw()` (script.js lines 453-467): decay each blip and
splice out the ones meeting the removal condition.  (The sweep-angle advance
and all canvas painting are presentational and not part of the blip state
transition.) -/
def drawBlipsStep : List Blip → List Blip
  | [] => []
  | b :: bs =>
    let b2 := decayBlip b
    if b2.ttl ≤ 0 ∨ b2.alpha < 1/50 then drawBlipsStep bs
    else b2 :: drawBlipsStep bs

/-- `stddev(arr)` (script.js line 503): population standard deviation,
`0` for an empty array.  JS-value coercions inside the arithmetic: `null`
entries act as `0`; any object entry poisons the fold with string
concatenation and the result is `NaN` (`none`). -/
noncomputable def stddev (arr : List JVal) : Option ℝ :=
  if arr.isEmpty then some 0
  else if arr.any fun v => (jvalNumOpt v).isNone then none
  else
    let vals : List ℚ := arr.map fun v => (jvalNumOpt v).getD 0
    let n : ℚ := (vals.length : ℚ)
    let m : ℚ := vals.sum / n
    let varq : ℚ := (vals.map fun v => (v - m) ^ 2).sum / n
    some (Real.sqrt (varq : ℝ))

/-- ACCURACY_K = 0.8 (script.js line 349). -/
def ACCURACY_K : ℚ := 4 / 5

/-- ACCURACY_MIN = 80.0 (script.js line 350). -/
def ACCURACY_MIN : ℝ := 80

/-- `Math.round(x*100)/100`: round to two decimals, halves toward +∞. -/
noncomputable def jsRound2 (x : ℝ) : ℝ := (⌊x * 100 + 1/2⌋ : ℤ) / 100

/-- `computeAccuracy(amb, obj, sigma)` (script.js line 504):
`dt = |(obj||0) - (amb||0)|`; `acc = 100 - (K*dt + 2*sigma)`; floor-clamp at
`ACCURACY_MIN`; round to two decimals.  `amb`/`obj` absent are defaulted to
`0` by `||0` (and `0` stays `0`, so `Option.getD 0` is exact); `sigma` is
*not* defaulted, so an absent (or NaN) `sigma` makes `acc` NaN, the clamp
comparison is false on NaN, and the rounded result is NaN (`none`). -/
noncomputable def computeAccuracy (amb obj : Option ℚ) (sigma : Option ℝ) :
    Option ℝ :=
  let dt : ℚ := |obj.getD 0 - amb.getD 0|
  match sigma with
  | none => none
  | some s =>
    let acc : ℝ := 100 - ((ACCURACY_K : ℝ) * (dt : ℝ) + 2 * s)
    some (jsRound2 (if acc < ACCURACY_MIN then ACCURACY_MIN else acc))

/-- The earlier (pre-final) `computeAccuracy` (script.js lines 220-225),
identical except that it also defaults `sigma` with `(sigma||0)`. -/
noncomputable def computeAccuracyV1 (amb obj : Option ℚ) (sigma : Option ℝ) :
    Option ℝ :=
  computeAccuracy amb obj (some (sigma.getD 0))

/-- Modelled from the spec's words for the refinement check of C1:
`accuracy = 100 − (K·|object−ambient| + 2·sigma)`, clamped to the floor
80.0 and rounded to 2 decimal places. -/
noncomputable def specEstimateAccuracy (ambient object : ℚ) (sigma : ℝ) : ℝ :=
  jsRound2 (max (100 - ((4/5 : ℝ) * |(object : ℝ) - (ambient : ℝ)| + 2 * sigma)) 80)

/-- `lastResults` (script.js line 380): the measurement session aggregate.
`accuracy` is `Option (Option ℝ)`: outer `none` is the initial `null`,
inner `none` is a NaN accuracy. -/
structure Session where
  distance : JVal
  readings : List JVal
  shape : Option String
  material : Option String
  rgb : Option RGB
  objTemp : Option ℚ
  ambTemp : Option ℚ
  speed : Option ℚ
  accuracy : Option (Option ℝ)

/-- The fresh session: every field `null`, `readings` empty. -/
def initSession : Session :=
  { distance := JVal.null, readings := [], shape := none, material := none
    rgb := none, objTemp := none, ambTemp := none, speed := none
    accuracy := none }

/-- The dashboard state visible to the core: the session, the chart data
array, the radar blips, the parsed numeric content of the two live
temperature text nodes (`none` when the text is non-numeric, as `parseFloat`
then yields NaN), the sweep angle and radar radius, the list of `count`
values sent to `/buzzer`, and a count of swallowed-error log lines. -/
structure World where
  sess : Session
  chart : List JVal
  blips : List Blip
  liveAmb : Option ℚ
  liveObj : Option ℚ
  sweep : ℚ
  maxR : ℚ
  buzzes : List ℤ
  warns : ℕ

/-- A fresh dashboard: initial session, chart pre-filled with nulls, no
blips, dash placeholders in the live text nodes.  The radar radius is fixed
at 100 for concreteness (it only scales blip radii). -/
def freshWorld : World :=
  { sess := initSession, chart := chartInit, blips := [], liveAmb := none
    liveObj := none, sweep := 0, maxR := 100, buzzes := [], warns := 0 }

/-- The `distance` branch of `callMeasure` (script.js lines 533-542):
`d = data.distance ?? data` (a payload without `distance` falls back to the
whole response object); store it, conditionally take `speed` and
`ambient_temp`, push `d` to the chart and radar, append it to `readings`. -/
def distBranch (p : Payload) (jit : ℕ → ℚ × ℚ) (w : World) : World :=
  let d : JVal := match p.distance with
    | some q => JVal.num q
    | none => JVal.obj p
  { w with
    sess := { w.sess with
      distance := d
      speed := if truthyQ p.speed then p.speed else w.sess.speed
      ambTemp := if truthyQ p.ambient_temp then p.ambient_temp else w.sess.ambTemp
      readings := w.sess.readings ++ [d] }
    liveAmb := if truthyQ p.ambient_temp then p.ambient_temp else w.liveAmb
    chart := pushChart w.chart d
    blips := addBlip w.maxR w.sweep (jit 0) d w.blips }

/-- The `readings.forEach(v => { pushChart(v); addBlip(v); })` loop of the
shape branch, threading the chart, the blip list and the index into the
injected random stream. -/
def shapeFold (maxR sweep : ℚ) (jit : ℕ → ℚ × ℚ) :
    ℕ → List JVal → List Blip → List (Option ℚ) → List JVal × List Blip
  | _, chart, blips, [] => (chart, blips)
  | i, chart, blips, v :: vs =>
    shapeFold maxR sweep jit (i + 1) (pushChart chart (jvalOfEntry v))
      (addBlip maxR sweep (jit i) (jvalOfEntry v) blips) vs

/-- The `shape` branch of `callMeasure` (script.js lines 543-550):
`readings` is replaced wholesale by `data.readings || []`; `shape` merged
with `||`; every entry of the new list (null entries included) is pushed to
the chart and the radar. -/
def shapeBranch (p : Payload) (jit : ℕ → ℚ × ℚ) (w : World) : World :=
  let rs : List (Option ℚ) := p.readings.getD []
  let cb := shapeFold w.maxR w.sweep jit 0 w.chart w.blips rs
  { w with
    sess := { w.sess with
      readings := rs.map jvalOfEntry
      shape := jsOrS p.shape w.sess.shape }
    chart := cb.1
    blips := cb.2 }

/-- The `material` branch of `callMeasure` (script.js lines 551-559):
merge `material`/`rgb` with `||` and the two temperatures with `??`; update
the live temperature texts when the merged values are truthy; add one blip
from `lastResults.distance || 30`. -/
def matBranch (p : Payload) (jit : ℕ → ℚ × ℚ) (w : World) : World :=
  let objT : Option ℚ := match p.object_temp with
    | some t => some t
    | none => w.sess.objTemp
  let ambT : Option ℚ := match p.ambient_temp with
    | some t => some t
    | none => w.sess.ambTemp
  let dBlip : JVal := if jvalTruthy w.sess.distance then w.sess.distance
    else JVal.num 30
  { w with
    sess := { w.sess with
      material := jsOrS p.material w.sess.material
      rgb := match p.rgb with
        | some c => some c
        | none => w.sess.rgb
      objTemp := objT
      ambTemp := ambT }
    liveObj := if truthyQ objT then objT else w.liveObj
    liveAmb := if truthyQ ambT then ambT else w.liveAmb
    blips := addBlip w.maxR w.sweep (jit 0) dBlip w.blips }

/-- Whether a (possibly NaN) accuracy is below 90; every comparison with NaN
is false in JS. -/
def jsLt90 : Option ℝ → Prop
  | none => False
  | some x => x < 90

/-- Accuracy comparisons against NaN are false, so a NaN accuracy counts as
not below 90. -/
noncomputable instance jsLt90.dec (a : Option ℝ) : Decidable (jsLt90 a) :=
  match a with
  | none => isFalse fun h => h
  | some x => inferInstanceAs (Decidable (x < 90))

/-- The accuracy recomputation of `callMeasure` (script.js lines 563-564):
the variance source is `readings` when non-empty, else the chart's non-null
entries; the temperature arguments are the `||`-chained fallbacks ending at
25 (`lastResults` value, then the parsed live text, then 25, with the
object temperature also trying the ambient one). -/
noncomputable def recomputedAccuracy (w : World) : Option ℝ :=
  let src : List JVal :=
    if w.sess.readings.length ≠ 0 then w.sess.readings
    else w.chart.filter fun v => v != JVal.null
  let s : Option ℝ := stddev src
  let ambArg : ℚ := (jsOrQ w.sess.ambTemp (jsOrQ w.liveAmb (some 25))).getD 25
  let objArg : ℚ :=
    (jsOrQ w.sess.objTemp
      (jsOrQ w.liveObj (jsOrQ w.sess.ambTemp (some 25)))).getD 25
  computeAccuracy (some ambArg) (some objArg) s

/-- The tail of `callMeasure` (script.js lines 562-571): recompute the
accuracy and store it; when it is below 90 POST `{count:2}` to `/buzzer`, a
failed POST only logging a warning.  `bf` says whether that POST fails. -/
noncomputable def recompute (bf : Bool) (w : World) : World :=
  let acc : Option ℝ := recomputedAccuracy w
  { w with
    sess := { w.sess with accuracy := some acc }
    buzzes := w.buzzes ++ if jsLt90 acc then [2] else []
    warns := w.warns + if jsLt90 acc ∧ bf then 1 else 0 }

/-- The measurement kinds of `callMeasure(type)`. -/
inductive MKind where
  | distance
  | shape
  | material
deriving DecidableEq

/-- `callMeasure(type)` (script.js lines 526-575) on a successfully parsed
response payload `p`: the kind-specific branch followed by the accuracy
recomputation and the conditional buzzer call. -/
noncomputable def callMeasure (t : MKind) (p : Payload) (jit : ℕ → ℚ × ℚ)
    (bf : Bool) (w : World) : World :=
  recompute bf <| match t with
    | MKind.distance => distBranch p jit w
    | MKind.shape => shapeBranch p jit w
    | MKind.material => matBranch p jit w

/-- The empty string (JS falsy). -/
def emptyStr : String := ""

/-- Decimal point. -/
def dotStr : String := "."

/-- Zero padding digit. -/
def zeroStr : String := "0"

/-- JS `x.toFixed(2)` for the non-negative rationals this dashboard renders:
round to two decimals (half up) and print with exactly two fraction digits. -/
def toFixed2 (q : ℚ) : String :=
  let n : ℤ := ⌊q * 100 + 1/2⌋
  let ip : ℤ := n / 100
  let fp : ℕ := (n % 100).toNat
  toString ip ++ dotStr ++ (if fp < 10 then zeroStr ++ toString fp else toString fp)

/-- JS default number-to-string conversion, restricted to the values the
dashboard interpolates (accuracies already rounded to at most two decimals):
integers print without a decimal point, others with one or two fraction
digits and no trailing zero. -/
def jsNumToString (q : ℚ) : String :=
  if q.den = 1 then toString q.num
  else
    let n : ℤ := ⌊q * 100 + 1/2⌋
    let ip : ℤ := n / 100
    let fp : ℕ := (n % 100).toNat
    toString ip ++ dotStr ++
      (if fp % 10 = 0 then toString (fp / 10)
       else if fp < 10 then zeroStr ++ toString fp
       else toString fp)

/-- Literal head of the thermal-gradient clause (script.js line 592). -/
def thermalPre : String := "Temperature difference ΔT="

/-- Literal tail of the thermal-gradient clause. -/
def thermalPost : String := "°C — expect reduced accuracy due to sound speed change. "

/-- The thermal-gradient warning clause with the rendered delta. -/
def thermalClause (d : String) : String := thermalPre ++ d ++ thermalPost

/-- Literal head of the variance clause (script.js line 593). -/
def variancePre : String := "High variance (σ="

/-- Literal tail of the variance clause. -/
def variancePost : String := " cm) suggests shape irregularity or absorbing material. "

/-- The variance warning clause with the rendered sigma. -/
def varianceClause (s : String) : String := variancePre ++ s ++ variancePost

/-- The favorable-conditions text (script.js line 594). -/
def favorableText : String := "Conditions favorable: low ΔT and stable readings."

/-- Literal head of the accuracy tail (script.js line 595), leading space
included. -/
def accTailPre : String := " Estimated accuracy: "

/-- Literal tail of the accuracy sentence. -/
def accTailPost : String := "%."

/-- The always-appended accuracy sentence. -/
def accuracyTail (a : String) : String := accTailPre ++ a ++ accTailPost

/-- The explanation closure of `openConclusion` (script.js lines 589-597):
`dt = |(parseFloat(objT)||0) - (parseFloat(ambT)||0)|` (`none` models a
non-numeric text, parsed to NaN and defaulted to 0); the thermal clause is
appended when `dt > 3`, the variance clause when `sigma > 1.5`, the
favorable text replaces an empty accumulator, and the accuracy sentence is
always appended.  Numeric arguments are restricted to `ℚ` so the string
rendering stays executable. -/
def explanationText (objT ambT : Option ℚ) (s : ℚ) (acc : ℚ) : String :=
  let dt : ℚ := |objT.getD 0 - ambT.getD 0|
  let txt1 : String := if dt > 3 then thermalClause (toFixed2 dt) else emptyStr
  let txt2 : String :=
    txt1 ++ (if s > 3/2 then varianceClause (toFixed2 s) else emptyStr)
  let txt3 : String := if txt2 = emptyStr then favorableText else txt2
  txt3 ++ accuracyTail (jsNumToString acc)

/-- Modelled from the spec's words for the refinement check of C9: the two
warning clauses are appended under their independent conditions, the
favorable text appears exactly when neither condition fires, and the
accuracy sentence is always appended. -/
def specExplanationText (objT ambT : ℚ) (s : ℚ) (acc : ℚ) : String :=
  let dt : ℚ := |objT - ambT|
  let clauses : String :=
    (if dt > 3 then thermalClause (toFixed2 dt) else emptyStr) ++
    (if s > 3/2 then varianceClause (toFixed2 s) else emptyStr)
  let body : String := if dt > 3 ∨ s > 3/2 then clauses else favorableText
  body ++ accuracyTail (jsNumToString acc)

/-- Substring containment. -/
def strContains (s sub : String) : Prop := ∃ p q : String, s = p ++ sub ++ q

/-- A payload with every field missing. -/
def pEmptyPayload : Payload := {}

/-- The C2 distance payload `{distance:50, ambient_temp:25, object_temp:25}`. -/
def pDist50 : Payload :=
  { distance := some 50, ambient_temp := some 25, object_temp := some 25 }

/-- The C2 material payload `{object_temp:40, ambient_temp:20}`. -/
def pMat : Payload := { object_temp := some 40, ambient_temp := some 20 }

/-- A shape payload with readings `[48, 50, 52]`. -/
def pShapeTri : Payload := { readings := some [some 48, some 50, some 52] }

/-- A deterministic stand-in for the injected random stream. -/
def jitZero : ℕ → ℚ × ℚ := fun _ => (0, 0)

/-- A session whose readings are `[48, 50, 52]`. -/
def w485052 : World :=
  { freshWorld with
    sess := { initSession with
      readings := [JVal.num 48, JVal.num 50, JVal.num 52] } }

/-- A session whose last measured distance is the legitimate reading 0 cm. -/
def wDistZero : World :=
  { freshWorld with sess := { initSession with distance := JVal.num 0 } }

/-- A session whose last measured distance is 50 cm. -/
def wDist50 : World :=
  { freshWorld with sess := { initSession with distance := JVal.num 50 } }

/-- Fifteen concrete chart values. -/
def vs15 : List JVal :=
  [JVal.num 1, JVal.num 2, JVal.num 3, JVal.num 4, JVal.num 5, JVal.num 6,
   JVal.num 7, JVal.num 8, JVal.num 9, JVal.num 10, JVal.num 11, JVal.num 12,
   JVal.num 13, JVal.num 14, JVal.num 15]

lemma pushChart_length_le (l : List JVal) (v : JVal) (h : l.length ≤ 10) :
    (pushChart l v).length ≤ 10 := by
  simp only [pushChart, MAX_POINTS]
  split
  · simpa [List.length_tail] using h
  · rename_i hlen
    simp only [not_lt, List.length_append, List.length_singleton] at hlen
    simpa using hlen

lemma pushChart_full (l : List JVal) (v : JVal) (h : l.length = 10) :
    pushChart l v = l.tail ++ [v] := by
  match l, h with
  | a :: l0, h =>
    have h9 : l0.length = 9 := by simpa using h
    simp only [pushChart, MAX_POINTS]
    rw [if_pos (by simp only [List.length_cons, List.length_append,
      List.length_singleton, h9]; omega)]
    simp

lemma foldl_pushChart_full (vs : List JVal) :
    ∀ l : List JVal, l.length = 10 →
      List.foldl pushChart l vs = (l ++ vs).drop vs.length := by
  induction vs with
  | nil => intro l h; simp
  | cons v vs ih =>
    intro l h
    match l, h with
    | a :: l2, h =>
      have hl2 : l2.length = 9 := by simpa using h
      have h10 : (l2 ++ [v]).length = 10 := by simp [hl2]
      have hstep : pushChart (a :: l2) v = l2 ++ [v] := by
        have := pushChart_full (a :: l2) v h
        simpa using this
      calc List.foldl pushChart (a :: l2) (v :: vs)
          = List.foldl pushChart (l2 ++ [v]) vs := by
            simp [List.foldl_cons, hstep]
        _ = ((l2 ++ [v]) ++ vs).drop vs.length := ih (l2 ++ [v]) h10
        _ = ((a :: l2) ++ v :: vs).drop (v :: vs).length := by
            simp [List.append_assoc]

lemma foldl_pushChart_length (vs : List JVal) (l : List JVal)
    (h : l.length = 10) : (List.foldl pushChart l vs).length = 10 := by
  rw [foldl_pushChart_full vs l h]
  simp [h]

/-- C5: the chart ring buffer has fixed capacity 10 with FIFO eviction: a
push on a list within capacity stays within capacity, a push on a full list
evicts exactly the oldest entry, and pushing 15 values onto the startup
chart leaves exactly the last 10 pushed values in insertion order. -/
theorem pushChart_ring_fifo :
    (∀ (l : List JVal) (v : JVal), l.length ≤ 10 → (pushChart l v).length ≤ 10)
    ∧ (∀ (l : List JVal) (v : JVal), l.length = 10 → pushChart l v = l.tail ++ [v])
    ∧ ∀ vs : List JVal, vs.length = 15 →
        List.foldl pushChart chartInit vs = vs.drop 5 := by
  refine ⟨pushChart_length_le, pushChart_full, fun vs h => ?_⟩
  rw [foldl_pushChart_full vs chartInit (by rfl), h]
  rfl

/-- Witness for C5 at concrete inputs. -/
theorem pushChart_ring_fifo_witness :
    (pushChart chartInit (JVal.num 7)).length ≤ 10
    ∧ pushChart chartInit (JVal.num 7) = chartInit.tail ++ [JVal.num 7]
    ∧ List.foldl pushChart chartInit vs15 = vs15.drop 5 :=
  ⟨pushChart_ring_fifo.1 chartInit (JVal.num 7) (by decide),
   pushChart_ring_fifo.2.1 chartInit (JVal.num 7) (by decide),
   pushChart_ring_fifo.2.2 vs15 (by decide)⟩

/-- C10: the chart series has constant length exactly 10: it starts as ten
null placeholders and every push preserves the length, so after any
sequence of pushes the snapshot still has exactly 10 entries. -/
theorem chart_series_constant_ten :
    chartInit.length = 10
    ∧ (∀ v ∈ chartInit, v = JVal.null)
    ∧ ∀ vs : List JVal, (List.foldl pushChart chartInit vs).length = 10 := by
  refine ⟨rfl, ?_, fun vs => foldl_pushChart_length vs chartInit rfl⟩
  intro v hv
  exact List.eq_of_mem_replicate hv

/-- Witness for C10 at concrete inputs. -/
theorem chart_series_constant_ten_witness :
    JVal.null = JVal.null
    ∧ (List.foldl pushChart chartInit vs15).length = 10 :=
  ⟨chart_series_constant_ten.2.1 JVal.null (by decide),
   chart_series_constant_ten.2.2 vs15⟩

lemma keepBlip_false (b : Blip) :
    keepBlip b = false ↔ (b.ttl ≤ 0 ∨ b.alpha < 1/50) := by
  simp only [keepBlip, Bool.not_eq_false', Bool.or_eq_true, decide_eq_true_eq]

lemma keepBlip_true (b : Blip) :
    keepBlip b = true ↔ (¬ b.ttl ≤ 0 ∧ ¬ b.alpha < 1/50) := by
  simp [keepBlip]

lemma drawBlipsStep_eq_filter (bs : List Blip) :
    drawBlipsStep bs = (bs.map decayBlip).filter keepBlip := by
  induction bs with
  | nil => rfl
  | cons b bs ih =>
    by_cases h : (decayBlip b).ttl ≤ 0 ∨ (decayBlip b).alpha < 1/50
    · have hk : keepBlip (decayBlip b) = false := (keepBlip_false _).mpr h
      have lhs : drawBlipsStep (b :: bs) = drawBlipsStep bs := if_pos h
      have rhs : ((b :: bs).map decayBlip).filter keepBlip
          = (bs.map decayBlip).filter keepBlip := by
        rw [List.map_cons, List.filter_cons, hk]
        simp
      rw [lhs, ih]
      exact rhs.symm
    · obtain ⟨h1, h2⟩ := not_or.mp h
      have hk : keepBlip (decayBlip b) = true := (keepBlip_true _).mpr ⟨h1, h2⟩
      have lhs : drawBlipsStep (b :: bs) = decayBlip b :: drawBlipsStep bs :=
        if_neg h
      have rhs : ((b :: bs).map decayBlip).filter keepBlip
          = decayBlip b :: (bs.map decayBlip).filter keepBlip := by
        rw [List.map_cons, List.filter_cons, hk]
        simp
      rw [lhs, ih]
      exact rhs.symm

lemma drawBlipsStep_length_le (bs : List Blip) :
    (drawBlipsStep bs).length ≤ bs.length := by
  rw [drawBlipsStep_eq_filter]
  calc ((bs.map decayBlip).filter keepBlip).length
      ≤ (bs.map decayBlip).length := List.length_filter_le _ _
    _ = bs.length := List.length_map _ _

lemma decayed_dead_not_mem (bs : List Blip) (b : Blip) (h : b.ttl = 1) :
    decayBlip b ∉ drawBlipsStep bs := by
  rw [drawBlipsStep_eq_filter]
  intro hm
  have hk := List.of_mem_filter hm
  simp [keepBlip, decayBlip, h] at hk

/-- C6: one radar animation tick decays every blip (`ttl -= 1`,
`alpha *= 0.99`, a factor within 0.985..0.99) and removes exactly the blips
with `ttl <= 0` or `alpha < 0.02` afterwards; the blip count never increases
absent `addBlip`, and a blip with `ttl = 1` is gone after exactly one tick. -/
theorem radar_tick_blip_decay :
    (∀ bs : List Blip, (drawBlipsStep bs).length ≤ bs.length)
    ∧ (∀ bs : List Blip, drawBlipsStep bs = (bs.map decayBlip).filter keepBlip)
    ∧ ((985/1000 : ℚ) ≤ decayFactor ∧ decayFactor ≤ 99/100)
    ∧ (∀ (bs : List Blip) (b : Blip), b.ttl = 1 → decayBlip b ∉ drawBlipsStep bs)
    ∧ ∀ b : Blip, b.ttl = 1 → drawBlipsStep [b] = [] := by
  refine ⟨drawBlipsStep_length_le, drawBlipsStep_eq_filter,
    ⟨by norm_num [decayFactor], le_refl _⟩, decayed_dead_not_mem, ?_⟩
  intro b h
  rw [drawBlipsStep_eq_filter]
  have hk : keepBlip (decayBlip b) = false := by
    simp [keepBlip, decayBlip, h]
  simp [List.filter_cons, hk]

/-- Witness for C6 at a concrete blip. -/
theorem radar_tick_blip_decay_witness :
    drawBlipsStep [Blip.mk (some 5) 0 1 1] = [] :=
  radar_tick_blip_decay.2.2.2.2 (Blip.mk (some 5) 0 1 1) rfl

/-- C1 counterexample: with an absent `sigma` (and both temperatures
present), `computeAccuracy` returns NaN (`none`), a non-numeric result, so
the claim that every absent numeric input is treated as 0 and the function
never produces a non-numeric result is false for the final
`computeAccuracy` (script.js line 504). -/
theorem computeAccuracy_absent_sigma_nan :
    computeAccuracy (some 25) (some 25) none = none := rfl

/-- C1 amended: absent `amb`/`obj` are treated as 0, and on fully present
inputs the result is exactly the spec formula (100 minus 0.8 times the
temperature delta plus twice sigma, floor-clamped at 80 and rounded to two
decimals); absent `sigma`, however, is not defaulted by the final code
(see the counterexample), while the earlier `computeAccuracy`
(script.js lines 220-225) does default it. -/
theorem computeAccuracy_amended :
    (∀ (o : Option ℚ) (s : Option ℝ),
      computeAccuracy none o s = computeAccuracy (some 0) o s)
    ∧ (∀ (a : Option ℚ) (s : Option ℝ),
      computeAccuracy a none s = computeAccuracy a (some 0) s)
    ∧ (∀ (a o : ℚ) (s : ℝ),
      computeAccuracy (some a) (some o) (some s)
        = some (specEstimateAccuracy a o s))
    ∧ ∀ (a o : Option ℚ),
        computeAccuracyV1 a o none = computeAccuracyV1 a o (some 0) := by
  refine ⟨fun o s => rfl, fun a s => rfl, fun a o s => ?_, fun a o => rfl⟩
  simp only [computeAccuracy, specEstimateAccuracy, ACCURACY_K, ACCURACY_MIN,
    Option.getD_some]
  congr 1
  have hdt : ((|o - a| : ℚ) : ℝ) = |(o : ℝ) - (a : ℝ)| := by push_cast; ring_nf
  have hK : (((4 : ℚ) / 5 : ℚ) : ℝ) = (4 / 5 : ℝ) := by push_cast; ring
  rw [hK, hdt]
  rcases le_or_lt 80 (100 - (4 / 5 * |(o : ℝ) - (a : ℝ)| + 2 * s)) with h | h
  · rw [if_neg (not_lt.mpr h), max_eq_left h]
  · rw [if_pos h, max_eq_right h.le]

lemma stddev_single50 : stddev [JVal.num 50] = some 0 := by
  simp only [stddev, List.isEmpty_cons, List.any_cons, List.any_nil,
    jvalNumOpt, Option.isNone_some, Bool.or_false, Bool.false_eq_true,
    if_false, List.map_cons, List.map_nil, Option.getD_some]
  norm_num

lemma stddev_485052 :
    stddev [JVal.num 48, JVal.num 50, JVal.num 52]
      = some (Real.sqrt (8/3 : ℝ)) := by
  simp only [stddev, List.isEmpty_cons, List.any_cons, List.any_nil,
    jvalNumOpt, Option.isNone_some, Bool.or_false, Bool.false_eq_true,
    if_false, List.map_cons, List.map_nil, Option.getD_some]
  norm_num

lemma sqrt83_bounds :
    (653/400 : ℝ) < Real.sqrt (8/3 : ℝ) ∧ Real.sqrt (8/3 : ℝ) < (131/80 : ℝ) := by
  have h0 : (0:ℝ) ≤ 8/3 := by norm_num
  have hs := Real.sq_sqrt h0
  have hnn := Real.sqrt_nonneg (8/3 : ℝ)
  constructor <;> nlinarith [hs, hnn]

lemma computeAccuracy_2525_0 :
    computeAccuracy (some 25) (some 25) (some 0) = some 100 := by
  simp only [computeAccuracy, ACCURACY_K, ACCURACY_MIN, Option.getD_some,
    jsRound2]
  norm_num

lemma computeAccuracy_2040_sqrt83 :
    computeAccuracy (some 20) (some 40) (some (Real.sqrt (8/3 : ℝ)))
      = some (8073/100 : ℝ) := by
  obtain ⟨h1, h2⟩ := sqrt83_bounds
  simp only [computeAccuracy, ACCURACY_K, ACCURACY_MIN, Option.getD_some,
    jsRound2]
  have habs : |(40 : ℚ) - 20| = 20 := by norm_num
  rw [habs]
  have hcast : (((4:ℚ)/5 : ℚ) : ℝ) * ((20 : ℚ) : ℝ) = 16 := by push_cast; norm_num
  rw [if_neg (by push_cast; nlinarith)]
  have hf : ⌊(100 - (((4:ℚ)/5 : ℚ) : ℝ) * ((20 : ℚ) : ℝ)
      - 2 * Real.sqrt (8/3 : ℝ)) * 100 + 1/2⌋ = (8073 : ℤ) := by
    rw [Int.floor_eq_iff]
    constructor
    · push_cast
      nlinarith
    · push_cast
      nlinarith
  have harr : (100 - ((((4:ℚ)/5 : ℚ) : ℝ) * ((20 : ℚ) : ℝ)
      + 2 * Real.sqrt (8/3 : ℝ))) = (100 - (((4:ℚ)/5 : ℚ) : ℝ) * ((20 : ℚ) : ℝ)
      - 2 * Real.sqrt (8/3 : ℝ)) := by ring
  rw [harr, hf]
  norm_num

lemma callMeasure_dist50_accuracy (jit : ℕ → ℚ × ℚ) (bf : Bool) :
    (callMeasure MKind.distance pDist50 jit bf freshWorld).sess.accuracy
      = some (some 100) := by
  norm_num [callMeasure, recompute, recomputedAccuracy, distBranch, pDist50, freshWorld,
    initSession, truthyQ, jsOrQ, stddev_single50, computeAccuracy_2525_0]

lemma callMeasure_material_accuracy (w : World) (jit : ℕ → ℚ × ℚ) (bf : Bool)
    (h : w.sess.readings = [JVal.num 48, JVal.num 50, JVal.num 52]) :
    (callMeasure MKind.material pMat jit bf w).sess.accuracy
      = some (some (8073/100 : ℝ)) := by
  norm_num [callMeasure, recompute, recomputedAccuracy, matBranch, pMat, truthyQ, jsOrQ, h,
    stddev_485052]
  have hdiv : Real.sqrt 8 / Real.sqrt 3 = Real.sqrt (8/3 : ℝ) :=
    (Real.sqrt_div (by norm_num : (0:ℝ) ≤ 8) 3).symm
  rw [hdiv]
  exact computeAccuracy_2040_sqrt83

/-- C2 counterexample: on a session whose readings are `[48, 50, 52]`, the
material measurement `{object_temp:40, ambient_temp:20}` recomputes the
accuracy to exactly 80.73 (σ = √(8/3) ≈ 1.633, so 2σ ≈ 3.266 and
100 − (16 + 2σ) ≈ 80.734, which rounds to 80.73), not the 80.74 the claim
states. -/
theorem endToEnd_material_8073_not_8074 :
    (callMeasure MKind.material pMat jitZero false w485052).sess.accuracy
      = some (some (8073/100 : ℝ))
    ∧ (8073/100 : ℝ) ≠ (8074/100 : ℝ) :=
  ⟨callMeasure_material_accuracy w485052 jitZero false rfl, by norm_num⟩

/-- C2 amended: on a fresh session, the distance measurement
`{distance:50, ambient_temp:25, object_temp:25}` yields accuracy exactly
100; on a session whose readings are `[48, 50, 52]`, the material
measurement `{object_temp:40, ambient_temp:20}` yields accuracy exactly
80.73 (the claim's 80.74 came from rounding σ to 1.63 before doubling). -/
theorem endToEnd_accuracy_amended :
    (∀ (jit : ℕ → ℚ × ℚ) (bf : Bool),
      (callMeasure MKind.distance pDist50 jit bf freshWorld).sess.accuracy
        = some (some 100))
    ∧ ∀ (w : World) (jit : ℕ → ℚ × ℚ) (bf : Bool),
        w.sess.readings = [JVal.num 48, JVal.num 50, JVal.num 52] →
        (callMeasure MKind.material pMat jit bf w).sess.accuracy
          = some (some (8073/100 : ℝ)) :=
  ⟨callMeasure_dist50_accuracy, callMeasure_material_accuracy⟩

/-- Witness for C2 at concrete inputs. -/
theorem endToEnd_accuracy_amended_witness :
    (callMeasure MKind.distance pDist50 jitZero true freshWorld).sess.accuracy
      = some (some 100)
    ∧ (callMeasure MKind.material pMat jitZero true w485052).sess.accuracy
      = some (some (8073/100 : ℝ)) :=
  ⟨endToEnd_accuracy_amended.1 jitZero true,
   endToEnd_accuracy_amended.2 w485052 jitZero true rfl⟩

lemma recompute_readings (bf : Bool) (w : World) :
    (recompute bf w).sess.readings = w.sess.readings := rfl

lemma recompute_chart (bf : Bool) (w : World) :
    (recompute bf w).chart = w.chart := rfl

lemma recompute_blips (bf : Bool) (w : World) :
    (recompute bf w).blips = w.blips := rfl

lemma recompute_distance (bf : Bool) (w : World) :
    (recompute bf w).sess.distance = w.sess.distance := rfl

lemma recompute_material (bf : Bool) (w : World) :
    (recompute bf w).sess.material = w.sess.material := rfl

lemma recompute_rgb (bf : Bool) (w : World) :
    (recompute bf w).sess.rgb = w.sess.rgb := rfl

lemma recompute_objTemp (bf : Bool) (w : World) :
    (recompute bf w).sess.objTemp = w.sess.objTemp := rfl

lemma recompute_ambTemp (bf : Bool) (w : World) :
    (recompute bf w).sess.ambTemp = w.sess.ambTemp := rfl

lemma shapeFold_fst (maxR sweep : ℚ) (jit : ℕ → ℚ × ℚ) :
    ∀ (rs : List (Option ℚ)) (i : ℕ) (chart : List JVal) (blips : List Blip),
      (shapeFold maxR sweep jit i chart blips rs).1
        = List.foldl pushChart chart (rs.map jvalOfEntry) := by
  intro rs
  induction rs with
  | nil => intro i chart blips; rfl
  | cons v vs ih =>
    intro i chart blips
    simp only [shapeFold, List.map_cons, List.foldl_cons]
    exact ih _ _ _

lemma shapeFold_snd_mono (maxR sweep : ℚ) (jit : ℕ → ℚ × ℚ) :
    ∀ (rs : List (Option ℚ)) (i : ℕ) (chart : List JVal) (blips : List Blip)
      (b : Blip), b ∈ blips → b ∈ (shapeFold maxR sweep jit i chart blips rs).2 := by
  intro rs
  induction rs with
  | nil => intro i chart blips b hb; exact hb
  | cons v vs ih =>
    intro i chart blips b hb
    exact ih _ _ _ _ (List.mem_append_left _ hb)

lemma shapeFold_snd_mem (maxR sweep : ℚ) (jit : ℕ → ℚ × ℚ) :
    ∀ (rs : List (Option ℚ)) (i : ℕ) (chart : List JVal) (blips : List Blip)
      (v : Option ℚ), v ∈ rs →
      ∃ b ∈ (shapeFold maxR sweep jit i chart blips rs).2,
        b.r = (jvalNumOpt (jvalOfEntry v)).map fun q => clamp01 (q/200) * maxR := by
  intro rs
  induction rs with
  | nil => intro i chart blips v hv; cases hv
  | cons u us ih =>
    intro i chart blips v hv
    rcases List.mem_cons.mp hv with rfl | hv
    · refine ⟨mkBlip maxR sweep (jit i) (jvalOfEntry v), ?_, rfl⟩
      refine shapeFold_snd_mono maxR sweep jit us _ _ _ _ ?_
      simp [addBlip]
    · exact ih _ _ _ v hv

/-- C3: the shape branch replaces the session's readings wholesale with the
payload's reading list (prior readings are discarded regardless of the prior
state, so a second shape measurement fully replaces again), pushes every
reading of that list into the chart series in order, and pushes every
non-null reading into the radar blip set (as a blip whose radius encodes
that reading's distance). -/
theorem applyShape_replaces_readings :
    ∀ (p : Payload) (rs : List (Option ℚ)) (w : World) (jit : ℕ → ℚ × ℚ)
      (bf : Bool), p.readings = some rs →
      ((callMeasure MKind.shape p jit bf w).sess.readings = rs.map jvalOfEntry)
      ∧ ((callMeasure MKind.shape p jit bf w).chart
          = List.foldl pushChart w.chart (rs.map jvalOfEntry))
      ∧ ∀ q : ℚ, some q ∈ rs →
          ∃ b ∈ (callMeasure MKind.shape p jit bf w).blips,
            b.r = some (clamp01 (q / 200) * w.maxR) := by
  intro p rs w jit bf h
  have hcall : callMeasure MKind.shape p jit bf w
      = recompute bf (shapeBranch p jit w) := rfl
  refine ⟨?_, ?_, ?_⟩
  · rw [hcall, recompute_readings]
    simp [shapeBranch, h]
  · rw [hcall, recompute_chart]
    simp only [shapeBranch, h, Option.getD_some]
    exact shapeFold_fst w.maxR w.sweep jit rs 0 w.chart w.blips
  · intro q hq
    rw [hcall, recompute_blips]
    simp only [shapeBranch, h, Option.getD_some]
    have := shapeFold_snd_mem w.maxR w.sweep jit rs 0 w.chart w.blips
      (some q) hq
    simpa [jvalOfEntry, jvalNumOpt] using this

/-- Witness for C3 at concrete inputs. -/
theorem applyShape_replaces_readings_witness :
    (callMeasure MKind.shape pShapeTri jitZero false freshWorld).sess.readings
      = [some (48:ℚ), some 50, some 52].map jvalOfEntry :=
  (applyShape_replaces_readings pShapeTri [some 48, some 50, some 52]
    freshWorld jitZero false rfl).1

/-- C4 counterexample: with the session's last known distance equal to the
legitimate reading 0 cm, a material measurement adds a blip computed from
the 30 cm fallback (radius 15 on a radar of radius 100), not from the known
distance 0 (radius 0): `lastResults.distance || 30` treats the number 0 as
unknown. -/
theorem material_blip_zero_distance :
    ((callMeasure MKind.material pEmptyPayload jitZero false
        wDistZero).blips.map Blip.r = [some 15])
    ∧ (15 : ℚ) ≠ clamp01 (0 / 200) * 100 := by
  constructor
  · have hcall : callMeasure MKind.material pEmptyPayload jitZero false
        wDistZero = recompute false (matBranch pEmptyPayload jitZero wDistZero) :=
      rfl
    rw [hcall, recompute_blips]
    norm_num [matBranch, wDistZero, freshWorld, initSession, jvalTruthy,
      addBlip, mkBlip, jvalNumOpt, clamp01, pEmptyPayload]
  · norm_num [clamp01]

/-- C4 amended: a material measurement overwrites exactly the fields present
in the payload (for `material` presence means a non-empty string, as the
merge uses JS `||`), keeps absent fields at their prior values, and adds
exactly one radar blip from the session's last known distance — falling
back to 30 cm not only when the distance is unknown (`null`) but also when
it is the known reading 0 (JS `||` conflates the two). -/
theorem applyMaterial_amended :
    ∀ (p : Payload) (w : World) (jit : ℕ → ℚ × ℚ) (bf : Bool),
      let w2 := callMeasure MKind.material p jit bf w
      (∀ m : String, p.material = some m → m ≠ "" → w2.sess.material = some m)
      ∧ (p.material = none → w2.sess.material = w.sess.material)
      ∧ (∀ c : RGB, p.rgb = some c → w2.sess.rgb = some c)
      ∧ (p.rgb = none → w2.sess.rgb = w.sess.rgb)
      ∧ (∀ t : ℚ, p.object_temp = some t → w2.sess.objTemp = some t)
      ∧ (p.object_temp = none → w2.sess.objTemp = w.sess.objTemp)
      ∧ (∀ t : ℚ, p.ambient_temp = some t → w2.sess.ambTemp = some t)
      ∧ (p.ambient_temp = none → w2.sess.ambTemp = w.sess.ambTemp)
      ∧ (w2.blips.length = w.blips.length + 1)
      ∧ (∀ q : ℚ, w.sess.distance = JVal.num q → q ≠ 0 →
          w2.blips = w.blips ++ [mkBlip w.maxR w.sweep (jit 0) (JVal.num q)])
      ∧ (w.sess.distance = JVal.null →
          w2.blips = w.blips ++ [mkBlip w.maxR w.sweep (jit 0) (JVal.num 30)])
      ∧ (w.sess.distance = JVal.num 0 →
          w2.blips = w.blips ++ [mkBlip w.maxR w.sweep (jit 0) (JVal.num 30)]) := by
  intro p w jit bf
  have hcall : callMeasure MKind.material p jit bf w
      = recompute bf (matBranch p jit w) := rfl
  refine ⟨?_, ?_, ?_, ?_, ?_, ?_, ?_, ?_, ?_, ?_, ?_, ?_⟩
  · intro m hm hne
    rw [hcall, recompute_material]
    simp [matBranch, jsOrS, truthyS, hm, hne]
  · intro hm
    rw [hcall, recompute_material]
    simp [matBranch, jsOrS, truthyS, hm]
  · intro c hc
    rw [hcall, recompute_rgb]
    simp [matBranch, hc]
  · intro hc
    rw [hcall, recompute_rgb]
    simp [matBranch, hc]
  · intro t ht
    rw [hcall, recompute_objTemp]
    simp [matBranch, ht]
  · intro ht
    rw [hcall, recompute_objTemp]
    simp [matBranch, ht]
  · intro t ht
    rw [hcall, recompute_ambTemp]
    simp [matBranch, ht]
  · intro ht
    rw [hcall, recompute_ambTemp]
    simp [matBranch, ht]
  · rw [hcall, recompute_blips]
    simp [matBranch, addBlip]
  · intro q hq hq0
    rw [hcall, recompute_blips]
    simp [matBranch, addBlip, jvalTruthy, hq, hq0]
  · intro hq
    rw [hcall, recompute_blips]
    simp [matBranch, addBlip, jvalTruthy, hq]
  · intro hq
    rw [hcall, recompute_blips]
    simp [matBranch, addBlip, jvalTruthy, hq]

/-- Witness for C4 at concrete inputs. -/
theorem applyMaterial_amended_witness :
    (callMeasure MKind.material pEmptyPayload jitZero false wDist50).blips
      = wDist50.blips
        ++ [mkBlip wDist50.maxR wDist50.sweep (jitZero 0) (JVal.num 50)] := by
  exact (applyMaterial_amended pEmptyPayload wDist50 jitZero
    false).2.2.2.2.2.2.2.2.2.1 50 rfl (by norm_num)

/-- C7 counterexample: a distance response with no `distance` field installs
the whole response object (a non-numeric value) as the session's distance,
appends it to `readings`, pushes it into the chart, and adds a radar blip
with NaN radius — `data.distance ?? data` falls back to the full payload. -/
theorem distance_missing_installs_object :
    ((callMeasure MKind.distance pEmptyPayload jitZero false
        freshWorld).sess.distance = JVal.obj pEmptyPayload)
    ∧ ((callMeasure MKind.distance pEmptyPayload jitZero false
        freshWorld).sess.readings = [JVal.obj pEmptyPayload])
    ∧ (JVal.obj pEmptyPayload
        ∈ (callMeasure MKind.distance pEmptyPayload jitZero false
            freshWorld).chart)
    ∧ ((callMeasure MKind.distance pEmptyPayload jitZero false
        freshWorld).blips.map Blip.r = [none]) := by
  have hcall : callMeasure MKind.distance pEmptyPayload jitZero false
      freshWorld = recompute false (distBranch pEmptyPayload jitZero freshWorld) :=
    rfl
  refine ⟨?_, ?_, ?_, ?_⟩
  · rw [hcall, recompute_distance]
    simp [distBranch, pEmptyPayload, freshWorld, initSession]
  · rw [hcall, recompute_readings]
    simp [distBranch, pEmptyPayload, freshWorld, initSession]
  · rw [hcall, recompute_chart]
    simp [distBranch, pEmptyPayload, freshWorld, initSession, pushChart,
      chartInit, MAX_POINTS]
  · rw [hcall, recompute_blips]
    simp [distBranch, pEmptyPayload, freshWorld, initSession, addBlip,
      mkBlip, jvalNumOpt]

/-- C7 amended: a distance response with a numeric `distance` stores and
pushes exactly that number, and the other branches default missing fields
without storing anything non-numeric (shape defaults a missing reading list
to the empty list and leaves the chart alone; material keeps a missing
temperature's prior value); but a distance response lacking `distance`
stores the whole response object (see the counterexample): the `?? data`
fallback is designed for bare-number responses, not for objects with the
field missing. -/
theorem payload_defaults_amended :
    ∀ (p : Payload) (w : World) (jit : ℕ → ℚ × ℚ) (bf : Bool),
      (∀ q : ℚ, p.distance = some q →
        ((callMeasure MKind.distance p jit bf w).sess.distance = JVal.num q)
        ∧ ((callMeasure MKind.distance p jit bf w).chart
            = pushChart w.chart (JVal.num q))
        ∧ ((callMeasure MKind.distance p jit bf w).sess.readings
            = w.sess.readings ++ [JVal.num q]))
      ∧ (p.distance = none →
        ((callMeasure MKind.distance p jit bf w).sess.distance = JVal.obj p)
        ∧ ((callMeasure MKind.distance p jit bf w).chart
            = pushChart w.chart (JVal.obj p))
        ∧ ((callMeasure MKind.distance p jit bf w).sess.readings
            = w.sess.readings ++ [JVal.obj p]))
      ∧ (p.readings = none →
        ((callMeasure MKind.shape p jit bf w).sess.readings = [])
        ∧ ((callMeasure MKind.shape p jit bf w).chart = w.chart))
      ∧ (p.object_temp = none →
        (callMeasure MKind.material p jit bf w).sess.objTemp
          = w.sess.objTemp) := by
  intro p w jit bf
  have hd : callMeasure MKind.distance p jit bf w
      = recompute bf (distBranch p jit w) := rfl
  have hs : callMeasure MKind.shape p jit bf w
      = recompute bf (shapeBranch p jit w) := rfl
  have hm : callMeasure MKind.material p jit bf w
      = recompute bf (matBranch p jit w) := rfl
  refine ⟨?_, ?_, ?_, ?_⟩
  · intro q hq
    refine ⟨?_, ?_, ?_⟩
    · rw [hd, recompute_distance]
      simp [distBranch, hq]
    · rw [hd, recompute_chart]
      simp [distBranch, hq]
    · rw [hd, recompute_readings]
      simp [distBranch, hq]
  · intro hq
    refine ⟨?_, ?_, ?_⟩
    · rw [hd, recompute_distance]
      simp [distBranch, hq]
    · rw [hd, recompute_chart]
      simp [distBranch, hq]
    · rw [hd, recompute_readings]
      simp [distBranch, hq]
  · intro hr
    refine ⟨?_, ?_⟩
    · rw [hs, recompute_readings]
      simp [shapeBranch, hr]
    · rw [hs, recompute_chart]
      simp [shapeBranch, hr, shapeFold]
  · intro ht
    rw [hm, recompute_objTemp]
    simp [matBranch, ht]

/-- Witness for C7 at concrete inputs. -/
theorem payload_defaults_amended_witness :
    (callMeasure MKind.distance pDist50 jitZero false freshWorld).sess.distance
      = JVal.num 50 :=
  ((payload_defaults_amended pDist50 freshWorld jitZero false).1 50 rfl).1

lemma recompute_accuracy (bf : Bool) (w : World) :
    (recompute bf w).sess.accuracy = some (recomputedAccuracy w) := rfl

lemma recompute_buzzes (bf : Bool) (w : World) :
    (recompute bf w).buzzes
      = w.buzzes ++ if jsLt90 (recomputedAccuracy w) then [2] else [] := rfl

/-- C8: after every measurement apply, the session fires exactly one
`{count:2}` buzzer notification if and only if the freshly recomputed
accuracy is below 90 (a NaN accuracy never fires); and whether the buzzer
POST fails has no effect on the session, chart, radar or notification list
(the failure is only logged), so delivery failure never alters state or
propagates. -/
theorem buzzer_iff_low_accuracy :
    ∀ (t : MKind) (p : Payload) (w : World) (jit : ℕ → ℚ × ℚ) (bf : Bool),
      (∃ a : Option ℝ,
        ((callMeasure t p jit bf w).sess.accuracy = some a)
        ∧ (jsLt90 a ↔ (callMeasure t p jit bf w).buzzes = w.buzzes ++ [2])
        ∧ (¬ jsLt90 a → (callMeasure t p jit bf w).buzzes = w.buzzes))
      ∧ ((callMeasure t p jit true w).sess = (callMeasure t p jit false w).sess
        ∧ (callMeasure t p jit true w).chart
            = (callMeasure t p jit false w).chart
        ∧ (callMeasure t p jit true w).blips
            = (callMeasure t p jit false w).blips
        ∧ (callMeasure t p jit true w).buzzes
            = (callMeasure t p jit false w).buzzes) := by
  intro t p w jit bf
  obtain ⟨w1, hw1, hbz⟩ :
      ∃ w1 : World, (∀ bf2 : Bool, callMeasure t p jit bf2 w = recompute bf2 w1)
        ∧ w1.buzzes = w.buzzes := by
    cases t
    · exact ⟨distBranch p jit w, fun _ => rfl, rfl⟩
    · exact ⟨shapeBranch p jit w, fun _ => rfl, rfl⟩
    · exact ⟨matBranch p jit w, fun _ => rfl, rfl⟩
  constructor
  · refine ⟨recomputedAccuracy w1, ?_, ?_, ?_⟩
    · rw [hw1 bf, recompute_accuracy]
    · rw [hw1 bf, recompute_buzzes, hbz]
      by_cases h : jsLt90 (recomputedAccuracy w1)
      · simp [h]
      · rw [if_neg h, List.append_nil]
        constructor
        · intro ha
          exact absurd ha h
        · intro he
          exfalso
          have hlen := congrArg List.length he
          simp at hlen
    · intro h
      rw [hw1 bf, recompute_buzzes, hbz, if_neg h, List.append_nil]
  · rw [hw1 true, hw1 false]
    exact ⟨rfl, rfl, rfl, rfl⟩

/-- Witness for C8 at concrete inputs. -/
theorem buzzer_iff_low_accuracy_witness :
    (callMeasure MKind.distance pDist50 jitZero true freshWorld).sess
      = (callMeasure MKind.distance pDist50 jitZero false freshWorld).sess :=
  (buzzer_iff_low_accuracy MKind.distance pDist50 freshWorld jitZero
    true).2.1

lemma append_ne_empty_left (s t : String) (h : s ≠ emptyStr) :
    s ++ t ≠ emptyStr := by
  intro he
  apply h
  have hl := congrArg String.length he
  rw [String.length_append] at hl
  have hz : s.length = 0 := by
    have h0 : (emptyStr : String).length = 0 := rfl
    omega
  cases s with
  | mk data =>
    cases data with
    | nil => rfl
    | cons c cs => simp [String.length] at hz

lemma append_ne_empty_right (s t : String) (h : t ≠ emptyStr) :
    s ++ t ≠ emptyStr := by
  intro he
  apply h
  have hl := congrArg String.length he
  rw [String.length_append] at hl
  have hz : t.length = 0 := by
    have h0 : (emptyStr : String).length = 0 := rfl
    omega
  cases t with
  | mk data =>
    cases data with
    | nil => rfl
    | cons c cs => simp [String.length] at hz

lemma thermalClause_ne_empty (d : String) : thermalClause d ≠ emptyStr :=
  append_ne_empty_left _ _ (append_ne_empty_left _ _ (by decide))

lemma varianceClause_ne_empty (d : String) : varianceClause d ≠ emptyStr :=
  append_ne_empty_left _ _ (append_ne_empty_left _ _ (by decide))

/-- C9: the explanation synthesizer equals, on every numeric snapshot, the
spec-side synthesizer that appends the thermal clause exactly when the
temperature delta exceeds 3, the variance clause exactly when sigma exceeds
1.5, the favorable text exactly when neither fires, and always the accuracy
sentence; at delta 5 and sigma 2 the produced text contains both warning
clauses and the rendered accuracy value. -/
theorem explanation_matches_spec :
    (∀ (o a s acc : ℚ),
      explanationText (some o) (some a) s acc = specExplanationText o a s acc)
    ∧ strContains (explanationText (some 30) (some 25) 2 92)
        (thermalClause (toFixed2 5))
    ∧ strContains (explanationText (some 30) (some 25) 2 92)
        (varianceClause (toFixed2 2))
    ∧ strContains (explanationText (some 30) (some 25) 2 92)
        (jsNumToString 92) := by
  have key : ∀ (o a s acc : ℚ),
      explanationText (some o) (some a) s acc = specExplanationText o a s acc := by
    intro o a s acc
    simp only [explanationText, specExplanationText, Option.getD_some]
    by_cases h1 : |o - a| > 3 <;> by_cases h2 : s > 3/2
    · rw [if_pos h1, if_pos h2, if_pos (Or.inl h1),
        if_neg (append_ne_empty_left _ _ (thermalClause_ne_empty _))]
    · rw [if_pos h1, if_neg h2, if_pos (Or.inl h1),
        if_neg (append_ne_empty_left _ _ (thermalClause_ne_empty _))]
    · rw [if_neg h1, if_pos h2, if_pos (Or.inr h2),
        if_neg (append_ne_empty_right _ _ (varianceClause_ne_empty _))]
    · rw [if_neg h1, if_neg h2,
        if_pos (show emptyStr ++ emptyStr = emptyStr from rfl),
        if_neg (not_or.mpr ⟨h1, h2⟩)]
  have hE : explanationText (some 30) (some 25) 2 92
      = thermalClause (toFixed2 5) ++ varianceClause (toFixed2 2)
        ++ (accTailPre ++ jsNumToString 92 ++ accTailPost) := by
    have hdt : |(30:ℚ) - 25| = 5 := by norm_num
    simp only [explanationText, accuracyTail, Option.getD_some, hdt]
    rw [if_pos (by norm_num : (5:ℚ) > 3), if_pos (by norm_num : (2:ℚ) > 3/2),
      if_neg (append_ne_empty_left _ _ (thermalClause_ne_empty _))]
  refine ⟨key, ?_, ?_, ?_⟩
  · refine ⟨emptyStr, varianceClause (toFixed2 2)
      ++ (accTailPre ++ jsNumToString 92 ++ accTailPost), ?_⟩
    rw [hE]
    simp [emptyStr, String.append_assoc]
  · refine ⟨thermalClause (toFixed2 5),
      accTailPre ++ jsNumToString 92 ++ accTailPost, ?_⟩
    rw [hE]
  · refine ⟨thermalClause (toFixed2 5) ++ varianceClause (toFixed2 2)
      ++ accTailPre, accTailPost, ?_⟩
    rw [hE]
    simp [String.append_assoc]
